import Mathlib

/-!
Shallow embedding of the breed-classification record pipeline of this
repository: the `classify-breed` edge function
(`supabase/functions/classify-breed/index.ts` and its storage-fallback
variant), the `get-animal-records` listing function and the
`update-animal-record` function.

External collaborators (the managed datastore, object storage, the HTTP
fetch of the image, authentication) are modelled as oracles: a boolean
outcome per external call, and the datastore as an explicit in-memory
state whose row operations follow the filters the handlers pass to it.
Confidence scores are rationals (the JS numbers in play are exact
decimals). JS falsy-ness of an optional string field is `none` or the
empty string.
-/

namespace Cattle

/-- JS truthiness of an optional string: `undefined`/`null`/`""` are falsy. -/
def jsTruthy : Option String → Bool
  | none => false
  | some s => s != ""

/-- One (breed, confidence) pair of a ranked prediction list. -/
structure Prediction where
  breed : String
  confidence : ℚ
deriving DecidableEq, Repr

/-- One row of the `animal_records` table (the fields the handlers touch). -/
structure AnimalRecord where
  id : Nat
  user_id : String
  animal_id : String
  animal_type : String
  predicted_breed : String
  confidence_score : ℚ
  image_url : String
  manual_breed : Option String
  final_breed : Option String
  verification_status : String
  verified_by : Option String
  notes : Option String
  location_data : Option String
  owner_details : Option String
deriving DecidableEq, Repr

/-- One row of the `breed_predictions` table (the prediction log). -/
structure PredictionLog where
  animal_record_id : Nat
  image_url : String
  predicted_breeds : List Prediction
  model_version : String
  processing_time_ms : Nat
deriving DecidableEq, Repr

/-- The datastore: the two tables the pipeline writes, plus a fresh-id
counter standing in for the database's id generation. -/
structure DbState where
  records : List AnimalRecord
  logs : List PredictionLog
  nextId : Nat
deriving DecidableEq, Repr

/-- The hard-coded mock prediction lists of the classify handler, keyed on
`animal_type`; any other species yields the empty list (the handler's
`let predictions = []` initialisation). The JS float literals 0.85, 0.12,
0.03, 0.78, 0.15, 0.07 are the exact rationals written here. -/
def mockPredictions (animal_type : String) : List Prediction :=
  if animal_type = "cattle" then
    [⟨"gir", mkRat 85 100⟩, ⟨"sahiwal", mkRat 12 100⟩,
     ⟨"jersey_cross", mkRat 3 100⟩]
  else if animal_type = "buffalo" then
    [⟨"murrah", mkRat 78 100⟩, ⟨"nili_ravi", mkRat 15 100⟩,
     ⟨"surti", mkRat 7 100⟩]
  else []

/-- The `animal_records` upsert with `onConflict: 'animal_id,user_id'`:
rows matching the conflict key are overwritten with the payload
(`user_id, animal_id, animal_type, predicted_breed, confidence_score,
image_url, verification_status: 'pending'`); when none matches a fresh
row is inserted with the payload and the remaining columns null.
Returns the resulting row (`.select().single()`) and the new state. -/
def upsertAnimalRecord (db : DbState) (uid aid atype breed : String)
    (conf : ℚ) (img : String) : AnimalRecord × DbState :=
  let apply : AnimalRecord → AnimalRecord := fun r =>
    { r with user_id := uid, animal_id := aid, animal_type := atype,
             predicted_breed := breed, confidence_score := conf,
             image_url := img, verification_status := "pending" }
  match db.records.find? (fun r => r.animal_id = aid && r.user_id = uid) with
  | some r =>
      (apply r,
       { db with records :=
           db.records.map (fun x =>
             if x.animal_id = aid && x.user_id = uid then apply x else x) })
  | none =>
      let fresh : AnimalRecord :=
        { id := db.nextId, user_id := uid, animal_id := aid,
          animal_type := atype, predicted_breed := breed,
          confidence_score := conf, image_url := img,
          manual_breed := none, final_breed := none,
          verification_status := "pending", verified_by := none,
          notes := none, location_data := none, owner_details := none }
      (fresh, { db with records := fresh :: db.records, nextId := db.nextId + 1 })

/-- Outcomes of the external calls the classify handler makes, plus the
measured elapsed time. `imageOk` covers both retrieval strategies (the
direct fetch of `index.ts` and the storage-download-with-HTTP-fallback of
the variant): did a byte blob come back. -/
structure ClassifyEnv where
  imageOk : Bool
  upsertOk : Bool
  logInsertOk : Bool
  processingTime : Nat
deriving DecidableEq, Repr

/-- The classify request: the four JSON body fields, and the
`Authorization` header, which the handler never reads. -/
structure ClassifyRequest where
  authorization : Option String
  image_url : Option String
  animal_id : Option String
  user_id : Option String
  animal_type : Option String
deriving DecidableEq, Repr

/-- The caller-visible outcomes of the classify handler. -/
inductive ClassifyResponse where
  /-- Status 400: `Missing required fields`. -/
  | missingFields : ClassifyResponse
  /-- Status 500: `Failed to create animal record`. -/
  | upsertFailed : ClassifyResponse
  /-- Status 500: the generic catch (`Internal server error`), reached by the
  invalid-URL throw, the failed image fetch, and the TypeError from
  reading `.breed` off `predictions[0]` when the list is empty. -/
  | internalError : ClassifyResponse
  /-- Status 200: the success payload. -/
  | success (animal_record_id : Nat) (predictions : List Prediction)
      (top : Prediction) (processing_time_ms : Nat) : ClassifyResponse
deriving DecidableEq, Repr

/-- The HTTP status code each classify outcome is sent with. -/
def ClassifyResponse.statusCode : ClassifyResponse → Nat
  | .missingFields => 400
  | .upsertFailed => 500
  | .internalError => 500
  | .success _ _ _ _ => 200

/-- Models `s.startsWith(pre)` on the character level. -/
def strStartsWith (s pre : String) : Bool :=
  decide (s.toList.take pre.toList.length = pre.toList)

/-- The classify handler (`classify-breed`), from the required-field check
to the response; returns the response and the datastore state after the
call. -/
def classify (env : ClassifyEnv) (db : DbState) (req : ClassifyRequest) :
    ClassifyResponse × DbState :=
  if ¬ (jsTruthy req.image_url && jsTruthy req.animal_id &&
        jsTruthy req.user_id && jsTruthy req.animal_type) then
    (.missingFields, db)
  else
    let img := req.image_url.getD ""
    if ¬ strStartsWith img "http" then (.internalError, db)
    else if ¬ env.imageOk then (.internalError, db)
    else
      let predictions := mockPredictions (req.animal_type.getD "")
      match predictions with
      | [] => (.internalError, db)
      | top :: _ =>
        if ¬ env.upsertOk then (.upsertFailed, db)
        else
          let up := upsertAnimalRecord db (req.user_id.getD "")
            (req.animal_id.getD "") (req.animal_type.getD "")
            top.breed top.confidence img
          let db' :=
            if env.logInsertOk then
              { up.2 with logs := up.2.logs ++
                  [⟨up.1.id, img, predictions, "resnet-50-v1.0", env.processingTime⟩] }
            else up.2
          (.success up.1.id predictions top env.processingTime, db')

/-! ### get-animal-records -/

/-- JS `\s`-style whitespace (the characters that matter here). -/
def isJsWs (c : Char) : Bool :=
  c = ' ' || c = '\t' || c = '\n' || c = '\r'

/-- Digit value of a character in radices up to 16. -/
def digitVal (c : Char) : Option Nat :=
  if '0' ≤ c ∧ c ≤ '9' then some (c.toNat - '0'.toNat)
  else if 'a' ≤ c ∧ c ≤ 'f' then some (c.toNat - 'a'.toNat + 10)
  else if 'A' ≤ c ∧ c ≤ 'F' then some (c.toNat - 'A'.toNat + 10)
  else none

/-- Longest digit prefix in the given radix, accumulated; `none` when no
digit was consumed (JS `NaN`). -/
def parseDigits (radix : Nat) : List Char → Option Nat → Option Nat
  | [], acc => acc
  | c :: rest, acc =>
    match digitVal c with
    | some d =>
        if d < radix then parseDigits radix rest (some (acc.getD 0 * radix + d))
        else acc
    | none => acc

/-- JS `parseInt(s)` (radix unspecified): trim leading whitespace, optional
sign, `0x`/`0X` selects radix 16, longest digit prefix; `none` is `NaN`. -/
def jsParseInt (s : String) : Option Int :=
  let cs := s.toList.dropWhile isJsWs
  let signed : Int × List Char :=
    match cs with
    | '-' :: r => (-1, r)
    | '+' :: r => (1, r)
    | _ => (1, cs)
  let based : Nat × List Char :=
    match signed.2 with
    | '0' :: 'x' :: r => (16, r)
    | '0' :: 'X' :: r => (16, r)
    | _ => (10, signed.2)
  (parseDigits based.1 based.2 none).map (fun n => signed.1 * (n : Int))

/-- JS `a || d` for a nullable string query parameter: `null` and `""` fall
back to the default. -/
def jsOrDefault (o : Option String) (d : String) : String :=
  match o with
  | some s => if s = "" then d else s
  | none => d

/-- JS `Math.min` with a possibly-NaN left operand: `NaN` propagates. -/
def jsMin (a : Option Int) (b : Int) : Option Int :=
  a.map (fun n => min n b)

/-- JS `x + y` where either side may be `NaN`. -/
def jsAdd (a b : Option Int) : Option Int :=
  match a, b with
  | some x, some y => some (x + y)
  | _, _ => none

/-- JS `a > b` where the right side may be `NaN`: any comparison with
`NaN` is false. -/
def jsGtNan (a : Int) (b : Option Int) : Bool :=
  match b with
  | some x => a > x
  | none => false

/-- The query parameters and header of a list-records request. -/
structure ListParams where
  authorization : Option String
  status : Option String
  animal_type : Option String
  limit : Option String
  offset : Option String
deriving DecidableEq, Repr

/-- Models `Math.min(parseInt(url.searchParams.get('limit') || '50'), 100)`. -/
def effectiveLimit (p : ListParams) : Option Int :=
  jsMin (jsParseInt (jsOrDefault p.limit "50")) 100

/-- Models `parseInt(url.searchParams.get('offset') || '0')`. -/
def effectiveOffset (p : ListParams) : Option Int :=
  jsParseInt (jsOrDefault p.offset "0")

/-- The `pagination` object of the list-records success payload. -/
structure Pagination where
  total : Nat
  limit : Option Int
  offset : Option Int
  has_more : Bool
deriving DecidableEq, Repr

/-- Outcomes of the external calls of the list handler: `authUser` is the
identity resolved from the bearer credential (`none` covers both the
missing header and the invalid/expired token), `queryOk` the main select,
`countOk` the count query (on whose failure the code falls back to
`count || 0`). -/
structure ListEnv where
  authUser : Option String
  queryOk : Bool
  countOk : Bool
deriving DecidableEq, Repr

/-- The caller-visible outcomes of the list handler. -/
inductive ListResponse where
  /-- Status 401: missing header or invalid token. -/
  | unauthorized : ListResponse
  /-- Status 500: `Failed to fetch animal records`. -/
  | queryFailed : ListResponse
  /-- Status 200: records page plus pagination. -/
  | success (records : List AnimalRecord) (pagination : Pagination) : ListResponse
deriving DecidableEq, Repr

/-- The status filter: applied only when the parameter is truthy and one
of the three valid statuses; otherwise ignored. -/
def statusFilter (p : ListParams) (l : List AnimalRecord) : List AnimalRecord :=
  match p.status with
  | some s =>
      if s ≠ "" ∧ s ∈ ["pending", "verified", "rejected"] then
        l.filter (fun r => r.verification_status = s)
      else l
  | none => l

/-- The species filter: applied only when the parameter is truthy and one
of the two valid species; otherwise ignored. -/
def typeFilter (p : ListParams) (l : List AnimalRecord) : List AnimalRecord :=
  match p.animal_type with
  | some s =>
      if s ≠ "" ∧ s ∈ ["cattle", "buffalo"] then
        l.filter (fun r => r.animal_type = s)
      else l
  | none => l

/-- Models `.range(offset, offset + limit - 1)`: the rows at positions
`offset .. offset + limit - 1` of the result set. A `NaN` bound yields no
rows. -/
def rangeSlice (l : List AnimalRecord) (offset limit : Option Int) :
    List AnimalRecord :=
  match offset, limit with
  | some o, some lim => (l.drop o.toNat).take lim.toNat
  | _, _ => []

/-- The get-animal-records handler. The newest-first ordering of the page
is delegated to the datastore and not modelled (no claim depends on it);
the count query filters by `user_id` only, as in the source. -/
def getAnimalRecords (env : ListEnv) (db : DbState) (p : ListParams) :
    ListResponse :=
  match env.authUser with
  | none => .unauthorized
  | some uid =>
    let limit := effectiveLimit p
    let offset := effectiveOffset p
    if ¬ env.queryOk then .queryFailed
    else
      let owned := db.records.filter (fun r => r.user_id = uid)
      let recs := rangeSlice (typeFilter p (statusFilter p owned)) offset limit
      let total := if env.countOk then owned.length else 0
      .success recs
        { total := total, limit := limit, offset := offset,
          has_more := jsGtNan (total : Int) (jsAdd offset limit) }

/-! ### update-animal-record -/

/-- Whitespace runs become a single underscore: the recursion carries
whether the previous character was inside a whitespace run. Models
`.replace(/\s+/g, '_')`. -/
def collapseWs : List Char → Bool → List Char
  | [], _ => []
  | c :: rest, prevWs =>
    if isJsWs c then
      if prevWs then collapseWs rest true
      else '_' :: collapseWs rest true
    else c :: collapseWs rest false

/-- Models `s.toLowerCase().replace(/\s+/g, '_')` — the breed-name normalisation
of the update handler. -/
def normalizeBreedName (s : String) : String :=
  ⟨collapseWs (s.toList.map Char.toLower) false⟩

/-- The JSON body of an update-record request, plus the header. `none`
means the field is absent. -/
structure UpdateRequest where
  authorization : Option String
  record_id : Option Nat
  manual_breed : Option String
  final_breed : Option String
  verification_status : Option String
  notes : Option String
  location_data : Option String
  owner_details : Option String
deriving DecidableEq, Repr

/-- The `updateData` object: the columns the update statement will write
(`none` = column not mentioned). -/
structure UpdateData where
  manual_breed : Option String
  final_breed : Option String
  verification_status : Option String
  notes : Option String
  location_data : Option String
  owner_details : Option String
  verified_by : Option String
deriving DecidableEq, Repr

/-- Builds `updateData` from the request body: truthy breed names are
normalised, `notes` is written whenever present (`!== undefined`), and a
truthy `verification_status` in {verified, rejected} stamps the caller
as `verified_by`. -/
def buildUpdateData (req : UpdateRequest) (uid : String) : UpdateData :=
  { manual_breed :=
      if jsTruthy req.manual_breed then
        some (normalizeBreedName (req.manual_breed.getD ""))
      else none,
    final_breed :=
      if jsTruthy req.final_breed then
        some (normalizeBreedName (req.final_breed.getD ""))
      else none,
    verification_status :=
      if jsTruthy req.verification_status then req.verification_status
      else none,
    notes := req.notes,
    location_data :=
      if jsTruthy req.location_data then req.location_data else none,
    owner_details :=
      if jsTruthy req.owner_details then req.owner_details else none,
    verified_by :=
      if jsTruthy req.verification_status &&
         (req.verification_status.getD "" = "verified" ||
          req.verification_status.getD "" = "rejected") then
        some uid
      else none }

/-- Applies `updateData` to a row: mentioned columns are overwritten, the
rest keep their values. -/
def applyUpdateData (u : UpdateData) (r : AnimalRecord) : AnimalRecord :=
  { r with
    manual_breed := u.manual_breed.or r.manual_breed,
    final_breed := u.final_breed.or r.final_breed,
    verification_status := (u.verification_status).getD r.verification_status,
    notes := (u.notes.map some).getD r.notes,
    location_data := u.location_data.or r.location_data,
    owner_details := u.owner_details.or r.owner_details,
    verified_by := u.verified_by.or r.verified_by }

/-- External outcomes of the update handler: the resolved caller identity
and whether the update statement fails at the datastore. -/
structure UpdateEnv where
  authUser : Option String
  dbError : Bool
deriving DecidableEq, Repr

/-- The caller-visible outcomes of the update handler. -/
inductive UpdateResponse where
  /-- Status 401: missing header or invalid token. -/
  | unauthorized : UpdateResponse
  /-- Status 400: `record_id is required`. -/
  | badRequest : UpdateResponse
  /-- Status 500: `Failed to update animal record`. -/
  | dbFailed : UpdateResponse
  /-- Status 404: `Record not found or access denied` — the handler's
  `!updatedRecord` branch. Unreachable, because `.single()` already raises
  an error (PGRST116) whenever zero rows matched; kept to mirror the
  source. -/
  | notFound : UpdateResponse
  /-- Status 200: the updated row. -/
  | success (record : AnimalRecord) : UpdateResponse
deriving DecidableEq, Repr

/-- The HTTP status code each update outcome is sent with. -/
def UpdateResponse.statusCode : UpdateResponse → Nat
  | .unauthorized => 401
  | .badRequest => 400
  | .dbFailed => 500
  | .notFound => 404
  | .success _ => 200

/-- The update-animal-record handler. The update statement is filtered by
`id` and `user_id` (ownership constraint), and its result is read with
`.select().single()`, which demands exactly one returned row: when the
filters match no row (record absent, or owned by another user),
PostgREST answers with error PGRST116, so the handler's `if (error)`
branch returns 500 — the dedicated `!updatedRecord` 404 branch is never
reached. `env.dbError` covers the remaining datastore failure causes of
the same 500 branch. -/
def updateAnimalRecord (env : UpdateEnv) (db : DbState) (req : UpdateRequest) :
    UpdateResponse × DbState :=
  match env.authUser with
  | none => (.unauthorized, db)
  | some uid =>
    match req.record_id with
    | none => (.badRequest, db)
    | some rid =>
      if env.dbError then (.dbFailed, db)
      else
        let u := buildUpdateData req uid
        match db.records.find? (fun r => r.id = rid && r.user_id = uid) with
        | none => (.dbFailed, db)
        | some r =>
            (.success (applyUpdateData u r),
             { db with records :=
                 db.records.map (fun x =>
                   if x.id = rid && x.user_id = uid then applyUpdateData u x
                   else x) })

/-! ### Helper lemmas -/

/-- The prediction list is sorted by non-increasing confidence. -/
def sortedByConfidenceDesc : List Prediction → Bool
  | [] => true
  | [_] => true
  | a :: b :: rest =>
      decide (b.confidence ≤ a.confidence) && sortedByConfidenceDesc (b :: rest)

/-! ### Concrete demonstration inputs -/

/-- An environment in which every external call succeeds. -/
def cEnv : ClassifyEnv := ⟨true, true, true, 12⟩

/-- Same environment with the prediction-log insert failing. -/
def cEnvNoLog : ClassifyEnv := ⟨true, true, false, 12⟩

/-- An empty datastore whose next generated id is 1. -/
def db0 : DbState := ⟨[], [], 1⟩

/-- A complete cattle classify request. -/
def cReq : ClassifyRequest :=
  ⟨some "Bearer token-a", some "http://host/cow.jpg", some "A1", some "u1",
   some "cattle"⟩

/-- The same request under a different credential. -/
def cReqAuth2 : ClassifyRequest := { cReq with authorization := some "Bearer token-b" }

/-- The same request with the animal identifier missing. -/
def cReqMissing : ClassifyRequest := { cReq with animal_id := none }

/-- The same request with a species outside {cattle, buffalo}. -/
def cReqGoat : ClassifyRequest := { cReq with animal_type := some "goat" }

/-- The row `classify cEnv db0 cReq` creates. -/
def c1Rec : AnimalRecord :=
  ⟨1, "u1", "A1", "cattle", "gir", mkRat 85 100, "http://host/cow.jpg",
   none, none, "pending", none, none, none, none⟩

/-- The datastore after `classify cEnv db0 cReq`. -/
def c1Db : DbState :=
  ⟨[c1Rec],
   [⟨1, "http://host/cow.jpg", mockPredictions "cattle", "resnet-50-v1.0", 12⟩],
   2⟩

/-- A record owned by `owner2`, already carrying a verifier stamp. -/
def uRec : AnimalRecord :=
  ⟨7, "owner2", "B2", "cattle", "gir", mkRat 85 100, "http://host/b.jpg",
   none, none, "pending", some "prior-verifier", none, none, none⟩

/-- A one-record datastore for the update scenarios. -/
def uDb : DbState := ⟨[uRec], [], 8⟩

/-- An update environment whose caller is `u1`, not the owner of `uRec`. -/
def uEnvStranger : UpdateEnv := ⟨some "u1", false⟩

/-- An update environment whose caller is the owner of `uRec`. -/
def uEnvOwner : UpdateEnv := ⟨some "owner2", false⟩

/-- An update request setting `verification_status` to `verified`. -/
def uReqVerify : UpdateRequest :=
  ⟨some "Bearer token-a", some 7, none, none, some "verified", none, none, none⟩

/-- The same request setting `verification_status` to `pending`. -/
def uReqPending : UpdateRequest := { uReqVerify with verification_status := some "pending" }

/-- The record `uRec` after the owner sets `verification_status` to
`verified`. -/
def uRecVerified : AnimalRecord :=
  { uRec with verification_status := "verified", verified_by := some "owner2" }

/-- The datastore after that verified update. -/
def uDbVerified : DbState := ⟨[uRecVerified], [], 8⟩

/-- A record template for the 120-row listing scenario. -/
def rec120 (i : Nat) : AnimalRecord :=
  ⟨i, "u1", toString i, "cattle", "gir", mkRat 85 100,
   "http://host/cow.jpg", none, none, "pending", none, none, none, none⟩

/-- A datastore holding 120 records of user `u1`. -/
def db120 : DbState := ⟨(List.range 120).map rec120, [], 120⟩

/-- A list environment with a resolved caller and healthy datastore. -/
def lEnv : ListEnv := ⟨some "u1", true, true⟩

/-- List parameters limit=50, offset=50. -/
def p5050 : ListParams := ⟨some "Bearer token-a", none, none, some "50", some "50"⟩

/-- List parameters limit=50, offset=70. -/
def p5070 : ListParams := ⟨some "Bearer token-a", none, none, some "50", some "70"⟩

/-- List parameters with no limit and no offset supplied. -/
def pDef : ListParams := ⟨some "Bearer token-a", none, none, none, none⟩

/-- List parameters with an oversized limit. -/
def p250 : ListParams := ⟨some "Bearer token-a", none, none, some "250", none⟩

/-- The page returned for `p5050` over `db120`. -/
def recs5050 : List AnimalRecord := (db120.records.drop 50).take 50

/-- The pagination object for `p5050` over `db120`. -/
def pg5050 : Pagination := ⟨120, some 50, some 50, true⟩

/-- The page returned for `p5070` over `db120`. -/
def recs5070 : List AnimalRecord := (db120.records.drop 70).take 50

/-- The pagination object for `p5070` over `db120`. -/
def pg5070 : Pagination := ⟨120, some 50, some 70, false⟩

/-- The page returned for `pDef` over `db120`. -/
def recsDef : List AnimalRecord := db120.records.take 50

/-- The pagination object for `pDef` over `db120`. -/
def pgDef : Pagination := ⟨120, some 50, some 0, true⟩

theorem upsertAnimalRecord_fst (db : DbState) (uid aid atype breed : String)
    (conf : ℚ) (img : String) :
    (upsertAnimalRecord db uid aid atype breed conf img).1.user_id = uid ∧
    (upsertAnimalRecord db uid aid atype breed conf img).1.predicted_breed = breed ∧
    (upsertAnimalRecord db uid aid atype breed conf img).1.confidence_score = conf ∧
    (upsertAnimalRecord db uid aid atype breed conf img).1.verification_status = "pending" := by
  unfold upsertAnimalRecord
  cases db.records.find? (fun r => r.animal_id = aid && r.user_id = uid) <;> simp

theorem upsertAnimalRecord_mem (db : DbState) (uid aid atype breed : String)
    (conf : ℚ) (img : String) :
    (upsertAnimalRecord db uid aid atype breed conf img).1 ∈
      (upsertAnimalRecord db uid aid atype breed conf img).2.records := by
  unfold upsertAnimalRecord
  cases h : db.records.find? (fun r => r.animal_id = aid && r.user_id = uid) with
  | none => simp
  | some r =>
      have hmem := List.mem_of_find?_eq_some h
      have hpred := List.find?_some h
      simp only []
      exact List.mem_map.mpr ⟨r, hmem, by simp [hpred]⟩

/-- Inversion of a successful classify call: the response carries the mock
list for the requested species, the top element is its head, the reported
time is the measured one, and the resulting state holds a row with the
response's id, the body-supplied owner, the head prediction's breed and
confidence, and status pending. -/
theorem classify_success_inv (env : ClassifyEnv) (db : DbState)
    (req : ClassifyRequest) (rid : Nat) (preds : List Prediction)
    (top : Prediction) (t : Nat) (db' : DbState)
    (h : classify env db req = (.success rid preds top t, db')) :
    preds = mockPredictions (req.animal_type.getD "") ∧
    preds.head? = some top ∧ t = env.processingTime ∧
    ∃ r ∈ db'.records, r.id = rid ∧ r.user_id = req.user_id.getD "" ∧
      r.predicted_breed = top.breed ∧ r.confidence_score = top.confidence ∧
      r.verification_status = "pending" := by
  unfold classify at h
  simp only [] at h
  repeat' split at h
  all_goals simp at h
  all_goals rename_i predictionsX ptop ptail heq hup hlog
  all_goals
    obtain ⟨⟨hrid, hpreds, htop, ht⟩, hdb⟩ := h
  all_goals subst hpreds
  all_goals subst htop
  all_goals subst ht
  all_goals subst hrid
  all_goals subst hdb
  all_goals
    refine ⟨rfl, by rw [heq]; rfl, rfl, ?_⟩
  all_goals
    have hf := upsertAnimalRecord_fst db (req.user_id.getD "")
      (req.animal_id.getD "") (req.animal_type.getD "")
      ptop.breed ptop.confidence (req.image_url.getD "")
  all_goals
    have hm := upsertAnimalRecord_mem db (req.user_id.getD "")
      (req.animal_id.getD "") (req.animal_type.getD "")
      ptop.breed ptop.confidence (req.image_url.getD "")
  all_goals
    exact ⟨(upsertAnimalRecord db (req.user_id.getD "")
      (req.animal_id.getD "") (req.animal_type.getD "")
      ptop.breed ptop.confidence (req.image_url.getD "")).1,
      by simpa using hm, rfl, hf.1, hf.2.1, hf.2.2.1, hf.2.2.2⟩

/-- A Rat.mkRat value equals its decimal literal. -/
theorem mkRat_85_100 : (mkRat 85 100 : ℚ) = 0.85 := by
  norm_num [Rat.mkRat_eq_div]

/-- C1: for every classify call with species `cattle` whose image retrieval
and record upsert succeed, the stored AnimalRecord has
predicted_breed = `gir` and confidence_score = 0.85 (the head of the
ranked prediction list), and is created with verification_status
`pending` when no record for that (animal_id, user_id) existed. -/
theorem classify_cattle_stores_top_prediction
    (env : ClassifyEnv) (db : DbState) (req : ClassifyRequest)
    (rid : Nat) (preds : List Prediction) (top : Prediction) (t : Nat)
    (db' : DbState)
    (hspecies : req.animal_type = some "cattle")
    (h : classify env db req = (.success rid preds top t, db')) :
    ∃ r ∈ db'.records, r.id = rid ∧ r.predicted_breed = "gir" ∧
      r.confidence_score = 0.85 ∧
      ((∀ r0 ∈ db.records, ¬ (r0.animal_id = req.animal_id.getD "" ∧
          r0.user_id = req.user_id.getD "")) →
        r.verification_status = "pending") := by
  obtain ⟨hpreds, hhead, -, r, hrmem, hrid, -, hrbreed, hrconf, hrstatus⟩ :=
    classify_success_inv env db req rid preds top t db' h
  rw [hspecies] at hpreds
  have htop : top = ⟨"gir", mkRat 85 100⟩ := by
    rw [hpreds] at hhead
    simpa [mockPredictions] using hhead.symm
  refine ⟨r, hrmem, hrid, ?_, ?_, fun _ => hrstatus⟩
  · rw [hrbreed, htop]
  · rw [hrconf, htop, ← mkRat_85_100]

theorem classify_cattle_stores_top_prediction_witness :
    ∃ r ∈ c1Db.records, r.id = 1 ∧ r.predicted_breed = "gir" ∧
      r.confidence_score = 0.85 ∧
      ((∀ r0 ∈ db0.records, ¬ (r0.animal_id = cReq.animal_id.getD "" ∧
          r0.user_id = cReq.user_id.getD "")) →
        r.verification_status = "pending") :=
  classify_cattle_stores_top_prediction cEnv db0 cReq 1 (mockPredictions "cattle")
    ⟨"gir", mkRat 85 100⟩ 12 c1Db rfl (by decide)

/-- C2: for every successful list-records call, the pagination object
reports has_more = (total > offset + limit) when both parse to numbers. -/
theorem getAnimalRecords_has_more_formula
    (env : ListEnv) (db : DbState) (p : ListParams)
    (recs : List AnimalRecord) (pg : Pagination) (L O : Int)
    (h : getAnimalRecords env db p = .success recs pg)
    (hL : effectiveLimit p = some L) (hO : effectiveOffset p = some O) :
    pg.has_more = decide ((pg.total : Int) > O + L) := by
  unfold getAnimalRecords at h
  cases henv : env.authUser with
  | none => rw [henv] at h; simp at h
  | some uid =>
    rw [henv] at h
    simp only [] at h
    split at h
    · simp at h
    · rw [ListResponse.success.injEq] at h
      obtain ⟨-, hpg⟩ := h
      subst hpg
      simp only [hL, hO, jsAdd, jsGtNan]

theorem getAnimalRecords_has_more_formula_witness :
    pg5050.has_more = true ∧ pg5070.has_more = false :=
  ⟨(getAnimalRecords_has_more_formula lEnv db120 p5050 recs5050 pg5050
      50 50 (by decide) (by decide) (by decide)).trans (by decide),
   (getAnimalRecords_has_more_formula lEnv db120 p5070 recs5070 pg5070
      50 70 (by decide) (by decide) (by decide)).trans (by decide)⟩

/-- C3: the claim says an update on a record owned by a different user
yields a 404 not-found result. The code does leave the record unchanged,
but the ownership-filtered update matches zero rows and `.single()`
raises PGRST116 there, so the `if (error)` branch answers 500 and the
handler's own `Record not found or access denied` 404 branch — the
stated design of the spec — is unreachable. Evaluated at a concrete
update of a foreign-owned record: caller `u1` against record 7 owned by
`owner2`. -/
theorem update_foreign_record_returns_500 :
    updateAnimalRecord uEnvStranger uDb uReqVerify = (.dbFailed, uDb) ∧
    UpdateResponse.dbFailed.statusCode = 500 ∧
    UpdateResponse.dbFailed.statusCode ≠ 404 :=
  ⟨by decide, rfl, by decide⟩

/-- C4: setting verification_status to `verified` or `rejected` stamps the
caller as verified_by; setting it to `pending` leaves verified_by at its
prior value. -/
theorem update_verified_by_stamping
    (env : UpdateEnv) (db : DbState) (req : UpdateRequest)
    (uid : String) (rid : Nat) (r r' : AnimalRecord) (db' : DbState)
    (hauth : env.authUser = some uid)
    (hrid : req.record_id = some rid)
    (hdbe : env.dbError = false)
    (hfind : db.records.find? (fun x => x.id = rid && x.user_id = uid) = some r)
    (hres : updateAnimalRecord env db req = (.success r', db')) :
    ((req.verification_status = some "verified" ∨
      req.verification_status = some "rejected") → r'.verified_by = some uid) ∧
    (req.verification_status = some "pending" →
      r'.verified_by = r.verified_by) := by
  unfold updateAnimalRecord at hres
  rw [hauth, hrid, hdbe] at hres
  simp only [Bool.false_eq_true, if_false, hfind] at hres
  rw [Prod.mk.injEq, UpdateResponse.success.injEq] at hres
  obtain ⟨hr', -⟩ := hres
  subst hr'
  constructor
  · rintro (hv | hv) <;>
      simp [applyUpdateData, buildUpdateData, hv, jsTruthy, Option.or]
  · intro hv
    simp [applyUpdateData, buildUpdateData, hv, jsTruthy, Option.or]

theorem update_verified_by_stamping_witness :
    uRecVerified.verified_by = some "owner2" ∧
    uRec.verified_by = some "prior-verifier" := by
  constructor
  · exact (update_verified_by_stamping uEnvOwner uDb uReqVerify "owner2" 7 uRec
      uRecVerified uDbVerified rfl rfl rfl (by decide) (by decide)).1 (Or.inl rfl)
  · exact ((update_verified_by_stamping uEnvOwner uDb uReqPending "owner2" 7 uRec
      uRec uDb rfl rfl rfl (by decide) (by decide)).2 rfl).trans rfl

/-- C5: the caller-visible classify response does not depend on the
prediction-log insert outcome. -/
theorem classify_log_failure_best_effort
    (env₁ env₂ : ClassifyEnv) (db : DbState) (req : ClassifyRequest)
    (himg : env₁.imageOk = env₂.imageOk)
    (hup : env₁.upsertOk = env₂.upsertOk)
    (ht : env₁.processingTime = env₂.processingTime) :
    (classify env₁ db req).1 = (classify env₂ db req).1 := by
  obtain ⟨i₁, u₁, l₁, t₁⟩ := env₁
  obtain ⟨i₂, u₂, l₂, t₂⟩ := env₂
  simp only at himg hup ht
  subst himg; subst hup; subst ht
  unfold classify
  dsimp only
  repeat' split
  all_goals rfl

theorem classify_log_failure_best_effort_witness :
    (classify cEnvNoLog db0 cReq).1 = (classify cEnv db0 cReq).1 :=
  classify_log_failure_best_effort cEnvNoLog cEnv db0 cReq rfl rfl rfl

/-- C6: a classify request missing any of the four required body fields
gets the 400 validation error and causes no datastore write. -/
theorem classify_missing_field_validation
    (env : ClassifyEnv) (db : DbState) (req : ClassifyRequest)
    (hmiss : jsTruthy req.image_url = false ∨ jsTruthy req.animal_id = false ∨
             jsTruthy req.user_id = false ∨ jsTruthy req.animal_type = false) :
    classify env db req = (.missingFields, db) ∧
    ClassifyResponse.missingFields.statusCode = 400 := by
  have hb : (jsTruthy req.image_url && jsTruthy req.animal_id &&
      jsTruthy req.user_id && jsTruthy req.animal_type) = false := by
    rcases hmiss with h | h | h | h <;> simp [h]
  refine ⟨?_, rfl⟩
  unfold classify
  rw [hb]
  simp

theorem classify_missing_field_validation_witness :
    classify cEnv db0 cReqMissing = (.missingFields, db0) ∧
    ClassifyResponse.missingFields.statusCode = 400 :=
  classify_missing_field_validation cEnv db0 cReqMissing
    (Or.inr (Or.inl (by decide)))

/-- C7: every successful classify call with a valid species returns a
non-empty prediction list sorted by non-increasing confidence. -/
theorem classify_predictions_sorted
    (env : ClassifyEnv) (db : DbState) (req : ClassifyRequest)
    (rid : Nat) (preds : List Prediction) (top : Prediction) (t : Nat)
    (db' : DbState)
    (hvalid : req.animal_type = some "cattle" ∨ req.animal_type = some "buffalo")
    (h : classify env db req = (.success rid preds top t, db')) :
    preds ≠ [] ∧ sortedByConfidenceDesc preds = true := by
  obtain ⟨hpreds, -, -, -⟩ := classify_success_inv env db req rid preds top t db' h
  rcases hvalid with hv | hv <;> rw [hv] at hpreds <;> subst hpreds <;>
    exact ⟨by decide, by decide⟩

theorem classify_predictions_sorted_witness :
    mockPredictions "cattle" ≠ [] ∧
    sortedByConfidenceDesc (mockPredictions "cattle") = true :=
  classify_predictions_sorted cEnv db0 cReq 1 (mockPredictions "cattle")
    ⟨"gir", mkRat 85 100⟩ 12 c1Db (Or.inl rfl) (by decide)

/-- C8: the effective page size defaults to 50, never exceeds 100 for any
supplied limit value, the offset defaults to 0, and both are echoed in
the pagination object of every successful call. -/
theorem list_limit_offset_defaults_cap (p : ListParams) :
    (p.limit = none → effectiveLimit p = some 50) ∧
    (∀ s n, p.limit = some s → effectiveLimit p = some n → n ≤ 100) ∧
    (p.offset = none → effectiveOffset p = some 0) ∧
    (∀ env db recs pg, getAnimalRecords env db p = .success recs pg →
      pg.limit = effectiveLimit p ∧ pg.offset = effectiveOffset p) := by
  refine ⟨?_, ?_, ?_, ?_⟩
  · intro h
    simp only [effectiveLimit, jsOrDefault, h]
    decide
  · intro s n _hs hn
    simp only [effectiveLimit, jsMin] at hn
    obtain ⟨m, -, hmin⟩ := Option.map_eq_some'.mp hn
    rw [← hmin]
    exact min_le_right m 100
  · intro h
    simp only [effectiveOffset, jsOrDefault, h]
    decide
  · intro env db recs pg h
    unfold getAnimalRecords at h
    cases henv : env.authUser with
    | none => rw [henv] at h; simp at h
    | some uid =>
      rw [henv] at h
      simp only [] at h
      split at h
      · simp at h
      · rw [ListResponse.success.injEq] at h
        obtain ⟨-, hpg⟩ := h
        subst hpg
        exact ⟨rfl, rfl⟩

theorem list_limit_offset_defaults_cap_witness :
    effectiveLimit pDef = some 50 ∧ effectiveOffset pDef = some 0 ∧
    (100 : Int) ≤ 100 ∧ pgDef.limit = effectiveLimit pDef :=
  ⟨(list_limit_offset_defaults_cap pDef).1 rfl,
   (list_limit_offset_defaults_cap pDef).2.2.1 rfl,
   (list_limit_offset_defaults_cap p250).2.1 "250" 100 rfl (by decide),
   ((list_limit_offset_defaults_cap pDef).2.2.2 lEnv db120 recsDef pgDef
      (by decide)).1⟩

/-- C9: the classify handler performs no credential check — two requests
identical except for the Authorization header produce identical results,
the status is never 401, and the upserted record's owner is the
body-supplied user_id. -/
theorem classify_ignores_authorization
    (env : ClassifyEnv) (db : DbState) (r₁ r₂ : ClassifyRequest)
    (rid : Nat) (preds : List Prediction) (top : Prediction) (t : Nat)
    (db' : DbState)
    (h1 : r₁.image_url = r₂.image_url) (h2 : r₁.animal_id = r₂.animal_id)
    (h3 : r₁.user_id = r₂.user_id) (h4 : r₁.animal_type = r₂.animal_type) :
    classify env db r₁ = classify env db r₂ ∧
    (classify env db r₁).1.statusCode ≠ 401 ∧
    (classify env db r₁ = (.success rid preds top t, db') →
      ∃ r ∈ db'.records, r.id = rid ∧ r.user_id = r₁.user_id.getD "") := by
  obtain ⟨a₁, i₁, d₁, u₁, ty₁⟩ := r₁
  obtain ⟨a₂, i₂, d₂, u₂, ty₂⟩ := r₂
  simp only at h1 h2 h3 h4
  subst h1; subst h2; subst h3; subst h4
  refine ⟨rfl, ?_, ?_⟩
  · cases hc : (classify env db ⟨a₁, i₁, d₁, u₁, ty₁⟩).1 <;>
      simp [ClassifyResponse.statusCode]
  · intro hsucc
    obtain ⟨-, -, -, r, hrmem, hrid, hruid, -, -, -⟩ :=
      classify_success_inv env db _ rid preds top t db' hsucc
    exact ⟨r, hrmem, hrid, hruid⟩

theorem classify_ignores_authorization_witness :
    classify cEnv db0 cReq = classify cEnv db0 cReqAuth2 ∧
    (classify cEnv db0 cReq).1.statusCode ≠ 401 ∧
    (∃ r ∈ c1Db.records, r.id = 1 ∧ r.user_id = cReq.user_id.getD "") := by
  obtain ⟨ha, hb, hc⟩ := classify_ignores_authorization cEnv db0 cReq cReqAuth2 1
    (mockPredictions "cattle") ⟨"gir", mkRat 85 100⟩ 12 c1Db rfl rfl rfl rfl
  exact ⟨ha, hb, hc (by decide)⟩

/-- C10: a classify request with all four fields present but a species
outside {cattle, buffalo} yields the empty prediction list and the 500
internal error (not a 400), with no datastore write. -/
theorem classify_invalid_species_internal_error
    (env : ClassifyEnv) (db : DbState) (req : ClassifyRequest) (s : String)
    (hfields : (jsTruthy req.image_url && jsTruthy req.animal_id &&
        jsTruthy req.user_id && jsTruthy req.animal_type) = true)
    (hs : req.animal_type = some s) (hc : s ≠ "cattle") (hb : s ≠ "buffalo") :
    mockPredictions s = [] ∧
    classify env db req = (.internalError, db) ∧
    ClassifyResponse.internalError.statusCode = 500 ∧
    ClassifyResponse.internalError.statusCode ≠ 400 := by
  have hemp : mockPredictions s = [] := by
    unfold mockPredictions
    rw [if_neg hc, if_neg hb]
  have hgetD : req.animal_type.getD "" = s := by rw [hs]; rfl
  refine ⟨hemp, ?_, rfl, by decide⟩
  unfold classify
  rw [hfields]
  simp only [not_true_eq_false, if_false, hgetD, hemp]
  repeat' split
  all_goals rfl

theorem classify_invalid_species_internal_error_witness :
    mockPredictions "goat" = [] ∧
    classify cEnv db0 cReqGoat = (.internalError, db0) ∧
    ClassifyResponse.internalError.statusCode = 500 ∧
    ClassifyResponse.internalError.statusCode ≠ 400 :=
  classify_invalid_species_internal_error cEnv db0 cReqGoat "goat" (by decide) rfl
    (by decide) (by decide)

end Cattle
